import Mathlib

/-!
# EntropyGuard - verification of the Procedure Playback & Drift-Reporting core

Shallow embedding of the state-machine, scheduler, coordinate-mapping and
audit-scoring logic of the EntropyGuard repository.  Machine numbers that the
code treats as exact (millisecond clocks, step indices, log counts) are
modelled as `Nat`/`Int`; the JavaScript `number`s flowing through the
coordinate mapper are modelled as `ℚ` (every concrete value in the code is a
finite decimal), with a dedicated `JsNum := Option ℚ` model where the `NaN`
behaviour itself matters.  Asynchronous calls are modelled by splitting the
scheduler into a synchronous start phase and a completion phase, and the
remote AI service is an oracle parameter (`RemoteOutcome`).
-/

namespace EntropyGuard

/-- `ComplianceStatus` from `types.ts`. -/
inductive ComplianceStatus where
  | MATCH
  | DRIFT
deriving DecidableEq, Repr

/-- `DriftSeverity` from `types.ts`. -/
inductive DriftSeverity where
  | LOW
  | MEDIUM
  | CRITICAL
deriving DecidableEq, Repr

/-- `ComplianceResponse` as produced by `analyzeCompliance` (`types.ts`,
second document: status, drift severity, anomaly box `[x, y, width, height]`
on the 0-1000 scale, and a corrective voice line). -/
structure ComplianceResponse where
  status : ComplianceStatus
  drift_severity : DriftSeverity
  coordinates : List ℚ
  correction_voice : String
deriving DecidableEq, Repr

/-- `MOCK_RESPONSE_DRIFT` from `types.ts`: the fixed verdict returned by
`analyzeCompliance` when the remote call fails (and one arm of the
simulation-mode coin flip). -/
def MOCK_RESPONSE_DRIFT : ComplianceResponse :=
  { status := .DRIFT
    drift_severity := .CRITICAL
    coordinates := [200, 300, 400, 300]
    correction_voice :=
      "Entropy Detected. Critical misalignment in sector 4. Reset component immediately." }

/-- `MOCK_RESPONSE_MATCH` from `types.ts`. -/
def MOCK_RESPONSE_MATCH : ComplianceResponse :=
  { status := .MATCH
    drift_severity := .LOW
    coordinates := [100, 100, 800, 800]
    correction_voice := "System Stable. Entropy within nominal limits." }

/-- Oracle for one remote Gemini call made by `analyzeCompliance`:
the call either resolves with a parsed `ComplianceResponse`, resolves with an
empty text body, or fails (network error, rejected promise, unparseable
JSON - every path that lands in the `catch`). -/
inductive RemoteOutcome where
  | ok (r : ComplianceResponse)
  | emptyText
  | err
deriving DecidableEq, Repr

/-- `analyzeCompliance` from `types.ts` (second document, lines 569-680),
with the remote service abstracted into a `RemoteOutcome` oracle and
`Math.random()` abstracted into `rand`.  Without an API key it flips a coin
between the two mock responses; with a key it returns the parsed remote
response, and every failure path (empty body included, which is thrown and
then caught) returns `MOCK_RESPONSE_DRIFT`.  The function is total: no
outcome makes it throw. -/
def analyzeCompliance (hasKey : Bool) (rand : ℚ) (outcome : RemoteOutcome) :
    ComplianceResponse :=
  if hasKey = false then
    if 1/2 < rand then MOCK_RESPONSE_DRIFT else MOCK_RESPONSE_MATCH
  else
    match outcome with
    | .ok r => r
    | .emptyText => MOCK_RESPONSE_DRIFT
    | .err => MOCK_RESPONSE_DRIFT

/-- `EntropyAnalysisResult` from `types.ts` (first document). -/
structure EntropyAnalysisResult where
  status : ComplianceStatus
  severity : DriftSeverity
  message : String
  confidence : ℚ
  boundingBox : Option (List ℚ)
  timestamp : String
deriving DecidableEq, Repr

/-- Oracle for the backend `fetch` made by `performEntropyCheck`: either a
parsed result body or any failure (non-ok response, network error, bad
JSON). -/
inductive BackendOutcome where
  | ok (d : EntropyAnalysisResult)
  | err
deriving DecidableEq, Repr

/-- `performEntropyCheck` from `services/geminiService.ts` (lines 30-70):
on a successful backend response the parsed data is returned with a fresh
timestamp; on any failure the `catch` fabricates a verdict locally from a
random draw (`Math.random() > 0.7`, abstracted into `isDrift`).  The adapter
never rejects. -/
def performEntropyCheck (hasKey : Bool) (isDrift : Bool) (ts : String)
    (outcome : BackendOutcome) : EntropyAnalysisResult :=
  match outcome with
  | .ok d => { d with timestamp := ts }
  | .err =>
    { status := if isDrift then .DRIFT else .MATCH
      severity := if isDrift then .MEDIUM else .LOW
      message := if hasKey then "CONNECTION LOST: Retrying backend..."
                 else "SIMULATION: Compliance verified."
      confidence := if hasKey then 0 else 98
      boundingBox := if isDrift then some [200, 300, 500, 600] else none
      timestamp := ts }

/-- `AuditLogEntry` as built in `runComplianceCheck` (`README.md` app
variant): id (`crypto.randomUUID()`), display timestamp, severity and the
corrective voice line copied from the verdict. -/
structure AuditLogEntry where
  id : String
  timestamp : String
  severity : DriftSeverity
  reasoning : String
deriving DecidableEq, Repr

/-- The mutable scheduler/session state read and written by
`runComplianceCheck` (`README.md` app variant, lines 646-731).
`analyzing` is `isAnalyzing`/`analyzingRef`, `lastProcessed` is
`lastProcessedTimeRef` (milliseconds), `auditLogs` and `result` are the
React states of the same names, `frozen` is `isFrozen`, `errorNotice` is
the transient `errorMsg` set by `showError`.  `callsStarted` is
instrumentation, not a source variable: it records the start times of the
Reasoning Client calls actually issued, so that call-count and call-spacing
properties can be stated. -/
structure SchedulerState where
  analyzing : Bool
  frozen : Bool
  lastProcessed : Nat
  auditLogs : List AuditLogEntry
  result : Option ComplianceResponse
  errorNotice : Option String
  callsStarted : List Nat
deriving DecidableEq, Repr

/-- Initial scheduler state: nothing in flight, `lastProcessedTimeRef`
initialised to 0, empty audit log. -/
def SchedInit : SchedulerState :=
  { analyzing := false, frozen := false, lastProcessed := 0, auditLogs := []
    result := none, errorNotice := none, callsStarted := [] }

/-- Synchronous prefix of `runComplianceCheck` (`README.md` lines 646-652),
up to and including the `await` boundary.  Guards, in order from the source:
missing webcam, `analyzingRef.current`, `isFrozen`, then the rate limit
`now - lastProcessedTimeRef.current < 2000` (`Nat` truncated subtraction
agrees with the JS comparison, which also drops when the difference is
negative).  Past the guards the code stamps `lastProcessedTimeRef`, raises
the in-flight flag and takes a screenshot; a `null` screenshot skips the
call and the flag ends the tick cleared.  Returns the new state and whether
a Reasoning Client call was started. -/
def tryStart (now : Nat) (webcam frame : Bool) (s : SchedulerState) :
    SchedulerState × Bool :=
  if webcam = false ∨ s.analyzing ∨ s.frozen then (s, false)
  else if now - s.lastProcessed < 2000 then (s, false)
  else if frame then
    ({ s with lastProcessed := now, analyzing := true,
              callsStarted := now :: s.callsStarted }, true)
  else ({ s with lastProcessed := now }, false)

/-- Audit entry appended by `runComplianceCheck` for a DRIFT verdict;
`meta` carries the nondeterministic `crypto.randomUUID()` and
`toLocaleTimeString()` values. -/
def mkAuditEntry (meta : String × String) (r : ComplianceResponse) :
    AuditLogEntry :=
  { id := meta.1, timestamp := meta.2, severity := r.drift_severity
    reasoning := r.correction_voice }

/-- Completion phase of `runComplianceCheck` (`README.md` lines 654-730):
if the awaited promise rejected, the `catch` shows a transient notice and
the only state change is the unconditional `setIsAnalyzing(false)`; if it
resolved, the verdict is stored in `result`, a DRIFT verdict prepends an
audit entry, and the in-flight flag is cleared. -/
def finish (outcome : Except Unit ComplianceResponse) (meta : String × String)
    (s : SchedulerState) : SchedulerState :=
  match outcome with
  | .error _ => { s with analyzing := false, errorNotice := some "Connection lost." }
  | .ok r =>
    let s1 := { s with result := some r }
    let s2 := if r.status = .DRIFT then
        { s1 with auditLogs := mkAuditEntry meta r :: s1.auditLogs }
      else s1
    { s2 with analyzing := false }

/-- One full `runComplianceCheck` tick in which the promise awaited by the
scheduler rejects (e.g. `applyPrivacyFilter` or a hand-wired client throws):
start phase, then the `catch` path when a call was actually started. -/
def runCheckRejecting (now : Nat) (webcam frame : Bool) (s : SchedulerState) :
    SchedulerState :=
  let p := tryStart now webcam frame s
  if p.2 then finish (.error ()) ("", "") p.1 else p.1

/-- One full `runComplianceCheck` tick wired, as in the source, to the
`analyzeCompliance` adapter: the adapter never rejects, so the completion
phase always receives `Except.ok` of whatever the adapter returned for the
remote outcome. -/
def runCheckWithClient (now : Nat) (webcam frame : Bool) (hasKey : Bool)
    (rand : ℚ) (outcome : RemoteOutcome) (meta : String × String)
    (s : SchedulerState) : SchedulerState :=
  let p := tryStart now webcam frame s
  if p.2 then finish (.ok (analyzeCompliance hasKey rand outcome)) meta p.1
  else p.1

/-- Scheduler history invariant: every recorded call started no later than
the current rate-limit stamp, and successive call start times (newest
first) are at least 2000 ms apart. -/
def SchedInv (s : SchedulerState) : Prop :=
  (∀ m ∈ s.callsStarted, m ≤ s.lastProcessed) ∧
    s.callsStarted.Pairwise (fun a b => b + 2000 ≤ a)

/-- The box-drawing arm of `drawOverlay` (`README.md` lines 493-535) as a
pure mapping over exact rationals: `scaleX = canvasWidth / 1000`,
`scaleY = canvasHeight / 1000`; a compliance box is drawn only when
`coords.length === 4`; under mirroring the horizontal origin is reflected in
normalized space, `x = 1000 - (x + w)`, before scaling. -/
def mapBox (coords : List ℚ) (W H : ℚ) (mirrored : Bool) :
    Option (ℚ × ℚ × ℚ × ℚ) :=
  match coords with
  | [x, y, w, h] =>
    let x1 := if mirrored then 1000 - (x + w) else x
    some (x1 * (W / 1000), y * (H / 1000), w * (W / 1000), h * (H / 1000))
  | _ => none

/-- A JavaScript `number` that is either a finite value (modelled exactly as
a rational) or `NaN`/non-finite, modelled as `none`. -/
abbrev JsNum : Type := Option ℚ

/-- JS addition: `NaN` absorbs. -/
def jadd : JsNum → JsNum → JsNum
  | some a, some b => some (a + b)
  | _, _ => none

/-- JS subtraction: `NaN` absorbs. -/
def jsub : JsNum → JsNum → JsNum
  | some a, some b => some (a - b)
  | _, _ => none

/-- JS multiplication (by a finite scale factor here): `NaN` absorbs. -/
def jmul : JsNum → JsNum → JsNum
  | some a, some b => some (a * b)
  | _, _ => none

/-- The canvas `rect`/`roundRect` primitive applied by `drawOverlay`.  Per
the HTML canvas standard these methods return without drawing when any
argument is non-finite, so a rectangle materialises only when all four
pixel values are finite. -/
def canvasRoundRect (a b c d : JsNum) : Option (ℚ × ℚ × ℚ × ℚ) :=
  match a, b, c, d with
  | some x, some y, some w, some h => some (x, y, w, h)
  | _, _, _, _ => none

/-- The compliance-box arm of `drawOverlay` over raw JS numbers: arity
guard `coords.length === 4`, mirroring arithmetic, scaling, and the final
canvas draw.  The result is the drawn pixel rectangle, or `none` when
nothing is drawn.  Total by construction: no input throws. -/
def drawnComplianceBox (coords : List JsNum) (W H : ℚ) (mirrored : Bool) :
    Option (ℚ × ℚ × ℚ × ℚ) :=
  match coords with
  | [x, y, w, h] =>
    let x1 := if mirrored then jsub (some 1000) (jadd x w) else x
    canvasRoundRect (jmul x1 (some (W / 1000))) (jmul y (some (H / 1000)))
      (jmul w (some (W / 1000))) (jmul h (some (H / 1000)))
  | _ => none

/-- A procedure step as produced by `processYoutubeVideo` (`types.ts`):
`timestamp` is the golden-frame second offset (absent for steps without
one; the JS code also treats a `0` timestamp as absent via truthiness). -/
structure Step where
  id : Nat
  text : String
  completed : Bool
  timestamp : Option ℚ
  tools : List String
deriving DecidableEq, Repr

/-- The Neural-SOP state of the `App.tsx` variant: `activeYoutube` models
`activeYoutubeUrl !== null` (with the player mounted), and `isPlaying` the
embedded player's play/pause state. -/
structure AppSt where
  activeYoutube : Bool
  sopSteps : List Step
  currentStepIndex : Nat
  isStepWaiting : Bool
  isPlaying : Bool
  currentThumbnail : Option String
deriving DecidableEq, Repr

/-- Whether the SOP video is actually playing: the player exists only while
`activeYoutubeUrl` is set (clearing it unmounts the iframe and halts
playback). -/
def playbackActive (s : AppSt) : Bool :=
  s.activeYoutube && s.isPlaying

/-- One tick of the Smart Pause effect (`App.tsx` lines 374-388).  The
effect body is guarded by `!activeYoutubeUrl || isStepWaiting ||
sopSteps.length === 0` (no interval is installed at all in those cases);
inside the interval, `sopSteps[currentStepIndex]` is read and, when it
exists and `time >= currentStep.timestamp` (false in JS when the timestamp
is absent, since the comparison is against `undefined`), the video is
paused and the waiting flag raised. -/
def smartPauseTick (time : ℚ) (s : AppSt) : AppSt :=
  if s.activeYoutube = false ∨ s.isStepWaiting ∨ s.sopSteps.length = 0 then s
  else
    match s.sopSteps[s.currentStepIndex]? with
    | none => s
    | some st =>
      match st.timestamp with
      | none => s
      | some ts =>
        if ts ≤ time then { s with isPlaying := false, isStepWaiting := true }
        else s

/-- `handleStepConfirm` from `App.tsx` lines 390-402: clears the waiting
flag; if `currentStepIndex < sopSteps.length - 1` it increments the index
and resumes playback, otherwise it announces completion (`alert`), clears
the video URL (unmounting the player), the step list, the index and the
thumbnail.  `Nat` subtraction agrees with the JS comparison: for an empty
list `i < length - 1` is false in both semantics.  Note the source never
writes to any `completed` field here. -/
def handleStepConfirm (s : AppSt) : AppSt :=
  let s1 := { s with isStepWaiting := false }
  if s1.currentStepIndex < s1.sopSteps.length - 1 then
    { s1 with currentStepIndex := s1.currentStepIndex + 1, isPlaying := true }
  else
    { s1 with activeYoutube := false, sopSteps := [], currentStepIndex := 0
              currentThumbnail := none }

/-- The protocol-text selection inside `runAnalysis` (`App.tsx` lines
460-462): the current step text when the list is non-empty and the index in
range, else the fixed fallback string.  Total: no out-of-range access. -/
def currentStepText (s : AppSt) : String :=
  if s.sopSteps.length ≠ 0 ∧ s.currentStepIndex < s.sopSteps.length then
    match s.sopSteps[s.currentStepIndex]? with
    | some st => st.text
    | none => "Standard Operating Procedure"
  else "Standard Operating Procedure"

/-- Supervisor-mode state of the `README.md` app variant. -/
structure SupSt where
  isSupervisorMode : Bool
  activeYoutube : Bool
  sopSteps : List Step
  currentVideoStepIndex : Nat
  isVideoPlaying : Bool
  showGoldenFrame : Bool
deriving DecidableEq, Repr

/-- `handleVideoProgress` from `README.md` lines 411-426: bails out unless
supervisor mode is on, a video is loaded, the step list is non-empty and no
golden frame is showing; then, when the current step has a (truthy, hence
nonzero) timestamp and the playback position is within the 0.5 s lead
window (`playedSeconds >= timestamp - 0.5`), playback is paused and the
golden-frame overlay (the awaiting-confirmation sub-state) is shown. -/
def handleVideoProgress (playedSeconds : ℚ) (s : SupSt) : SupSt :=
  if s.isSupervisorMode = false ∨ s.activeYoutube = false ∨
      s.sopSteps.length = 0 ∨ s.showGoldenFrame then s
  else
    match s.sopSteps[s.currentVideoStepIndex]? with
    | none => s
    | some st =>
      match st.timestamp with
      | none => s
      | some ts =>
        if ts = 0 then s
        else if ts - 1/2 ≤ playedSeconds then
          { s with isVideoPlaying := false, showGoldenFrame := true }
        else s

/-- Mark the step at position `i` completed, as `newSteps[i].completed =
true` does on the copied array. -/
def markCompleted : List Step → Nat → List Step
  | [], _ => []
  | st :: rest, 0 => { st with completed := true } :: rest
  | st :: rest, n + 1 => st :: markCompleted rest n

/-- The supervisor auto-advance block of `runComplianceCheck` (`README.md`
lines 700-723), entered for a MATCH verdict while the golden frame is
showing: below the last index it advances the index, hides the overlay,
resumes playback and marks the just-verified step completed; on the last
index it ends supervisor mode and halts playback (the last step is not
marked). -/
def supervisorAdvance (s : SupSt) : SupSt :=
  if s.currentVideoStepIndex < s.sopSteps.length - 1 then
    { s with currentVideoStepIndex := s.currentVideoStepIndex + 1,
             showGoldenFrame := false, isVideoPlaying := true,
             sopSteps := markCompleted s.sopSteps s.currentVideoStepIndex }
  else
    { s with isSupervisorMode := false, showGoldenFrame := false,
             isVideoPlaying := false }

/-- Effect of one MATCH verdict on the supervisor state: the advance block
runs only under `isSupervisorMode && isMatch` and then `if
(showGoldenFrame)`. -/
def onMatchVerdict (s : SupSt) : SupSt :=
  if s.isSupervisorMode ∧ s.showGoldenFrame then supervisorAdvance s else s

/-- `LogEntry.type` from `types.ts` (first document). -/
inductive LogType where
  | INFO
  | WARNING
  | ERROR
  | SUCCESS
  | AI
deriving DecidableEq, Repr

/-- `LogEntry` from `types.ts` (first document). -/
structure LogEntry where
  id : String
  timestamp : String
  type : LogType
  message : String
deriving DecidableEq, Repr

/-- The error count of `ComplianceModal` (`unnamed/part_003` line 85):
`logs.filter(l => l.type === 'ERROR').length`. -/
def countErrors (logs : List LogEntry) : Nat :=
  (logs.filter (fun l => l.type == LogType.ERROR)).length

/-- `complianceScore` from `ComplianceModal` (`unnamed/part_003` line 86):
`Math.max(0, 100 - (errors * 15))`. -/
def complianceScore (logs : List LogEntry) : Int :=
  max 0 (100 - (countErrors logs : Int) * 15)

/-- The logging arm of `captureFrame` (`unnamed/part_000` lines 258-264):
a DRIFT verdict appends (at the end, as `addLog` does) one log entry of
type `ERROR` with message `DRIFT: <verdict message>`; a MATCH verdict
appends nothing.  `eid`/`ets` carry the random id and display time. -/
def captureFrameLog (r : EntropyAnalysisResult) (eid ets : String)
    (logs : List LogEntry) : List LogEntry :=
  if r.status = .DRIFT then
    logs ++ [{ id := eid, timestamp := ets, type := .ERROR,
               message := "DRIFT: " ++ r.message }]
  else logs

/-- The spec's concrete scenario B verdict: a CRITICAL drift with anomaly box
`[100, 200, 300, 400]` and message `Wrong polarity`. -/
def scenarioVerdict : EntropyAnalysisResult :=
  { status := .DRIFT, severity := .CRITICAL, message := "Wrong polarity"
    confidence := 90, boundingBox := some [100, 200, 300, 400], timestamp := "" }

/-- A non-penalizing log entry used to exercise the score lemmas. -/
def warningEntry : LogEntry :=
  { id := "w1", timestamp := "10:00:00", type := LogType.WARNING
    message := "minor" }

/-- A two-step SOP loaded in the `App.tsx` variant, paused and awaiting
confirmation on the first step. -/
def c5Ex : AppSt :=
  { activeYoutube := true
    sopSteps := [{ id := 1, text := "Attach the side panel", completed := false,
                   timestamp := some 15, tools := [] },
                 { id := 2, text := "Torque the four bolts", completed := false,
                   timestamp := some 45, tools := [] }]
    currentStepIndex := 0, isStepWaiting := true, isPlaying := false
    currentThumbnail := some "thumb" }

/-- The spec's concrete scenario A step list: golden-frame timestamps at
10 s and 45 s. -/
def c6Steps : List Step :=
  [{ id := 1, text := "Connect the red lead", completed := false,
     timestamp := some 10, tools := [] },
   { id := 2, text := "Seal the housing", completed := false,
     timestamp := some 45, tools := [] }]

/-- Scenario A initial supervisor state: armed, video playing, first step
active. -/
def c6S0 : SupSt :=
  { isSupervisorMode := true, activeYoutube := true, sopSteps := c6Steps
    currentVideoStepIndex := 0, isVideoPlaying := true, showGoldenFrame := false }

/-- Scenario A, after the progress callback reports position 9.6 s. -/
def c6S1 : SupSt := handleVideoProgress (96/10) c6S0

/-- Scenario A, after the MATCH verdict confirming step 1. -/
def c6S2 : SupSt := onMatchVerdict c6S1

/-- Scenario A, after the progress callback reports position 44.6 s. -/
def c6S3 : SupSt := handleVideoProgress (446/10) c6S2

/-- Scenario A, after the MATCH verdict confirming the last step. -/
def c6S4 : SupSt := onMatchVerdict c6S3

/-- Expected state after the 9.6 s progress callback: paused, awaiting
confirmation on step index 0. -/
def c6After1 : SupSt :=
  { isSupervisorMode := true, activeYoutube := true, sopSteps := c6Steps
    currentVideoStepIndex := 0, isVideoPlaying := false
    showGoldenFrame := true }

/-- Expected state after confirming step 1: advanced to index 1, playing,
step 1 marked completed. -/
def c6After2 : SupSt :=
  { isSupervisorMode := true, activeYoutube := true
    sopSteps := markCompleted c6Steps 0, currentVideoStepIndex := 1
    isVideoPlaying := true, showGoldenFrame := false }

/-- Expected state after the 44.6 s progress callback: paused again,
awaiting confirmation on the last step. -/
def c6After3 : SupSt :=
  { isSupervisorMode := true, activeYoutube := true
    sopSteps := markCompleted c6Steps 0, currentVideoStepIndex := 1
    isVideoPlaying := false, showGoldenFrame := true }

/-- Expected terminal state after confirming the last step: supervisor mode
ended, playback halted. -/
def c6After4 : SupSt :=
  { isSupervisorMode := false, activeYoutube := true
    sopSteps := markCompleted c6Steps 0, currentVideoStepIndex := 1
    isVideoPlaying := false, showGoldenFrame := false }

/-- An armed `App.tsx` state whose procedure has zero steps. -/
def c9Empty : AppSt :=
  { activeYoutube := true, sopSteps := [], currentStepIndex := 0
    isStepWaiting := false, isPlaying := true, currentThumbnail := none }

/-- An armed supervisor state whose procedure has zero steps. -/
def c9EmptySup : SupSt :=
  { isSupervisorMode := true, activeYoutube := true, sopSteps := []
    currentVideoStepIndex := 0, isVideoPlaying := true, showGoldenFrame := false }

/-!
## Helper lemmas
-/

/-- Appending one entry changes the error count by one exactly when the new
entry has type `ERROR`. -/
theorem countErrors_append_single (logs : List LogEntry) (e : LogEntry) :
    countErrors (logs ++ [e]) =
      countErrors logs + (if e.type = LogType.ERROR then 1 else 0) := by
  by_cases h : e.type = LogType.ERROR <;>
    simp [countErrors, List.filter_append, h]

/-- The start phase never touches the audit log. -/
theorem tryStart_fst_auditLogs (now : Nat) (w f : Bool) (s : SchedulerState) :
    (tryStart now w f s).1.auditLogs = s.auditLogs := by
  unfold tryStart
  split_ifs <;> rfl

/-- The start phase never touches the stored verdict. -/
theorem tryStart_fst_result (now : Nat) (w f : Bool) (s : SchedulerState) :
    (tryStart now w f s).1.result = s.result := by
  unfold tryStart
  split_ifs <;> rfl

/-- When the start phase does not start a call, the in-flight flag is
unchanged. -/
theorem tryStart_not_started (now : Nat) (w f : Bool) (s : SchedulerState)
    (h : (tryStart now w f s).2 = false) :
    (tryStart now w f s).1.analyzing = s.analyzing := by
  unfold tryStart at h ⊢
  split_ifs at h ⊢ <;> simp_all

/-!
## Claim theorems
-/

/-- C4: for every box `[x, y, w, h]` in the 0-1000 space and canvas
`(W, H)`, the overlay mapping with `mirrored = false` yields the pixel
rectangle `(x/1000*W, y/1000*H, w/1000*W, h/1000*H)`; with
`mirrored = true` the horizontal position satisfies
`x1 = W - (x/1000*W + w/1000*W)` while y, width and height are
unchanged. -/
theorem mapBox_pixel_mapping (x y w h W H : ℚ) :
    mapBox [x, y, w, h] W H false =
      some (x / 1000 * W, y / 1000 * H, w / 1000 * W, h / 1000 * H) ∧
    mapBox [x, y, w, h] W H true =
      some (W - (x / 1000 * W + w / 1000 * W), y / 1000 * H, w / 1000 * W,
            h / 1000 * H) := by
  constructor <;>
  · simp only [mapBox, Bool.false_eq_true, if_false, if_true,
      Option.some.injEq, Prod.mk.injEq]
    refine ⟨by ring, by ring, by ring, by ring⟩

/-- C8: every malformed anomaly box - wrong arity or any non-finite
component - makes the overlay draw nothing; the mapping is a total
function, so no such input can throw. -/
theorem malformed_box_draws_nothing (coords : List JsNum) (W H : ℚ)
    (mirrored : Bool) (hmal : coords.length ≠ 4 ∨ none ∈ coords) :
    drawnComplianceBox coords W H mirrored = none := by
  rcases coords with _ | ⟨a, _ | ⟨b, _ | ⟨c, _ | ⟨d, _ | ⟨e, rest⟩⟩⟩⟩⟩
  · rfl
  · rfl
  · rfl
  · rfl
  · rcases hmal with hlen | hmem
    · simp at hlen
    · cases mirrored <;> cases a <;> cases b <;> cases c <;> cases d <;>
        first | rfl | simp_all
  · rfl

/-- C10: the Reasoning Client adapters are total and never reject: every
failure path of `analyzeCompliance` returns the fixed mock CRITICAL DRIFT
verdict, indistinguishable from a genuine remote response with the same
payload, and every failure path of `performEntropyCheck` returns a locally
fabricated verdict, so a transport failure surfaces as an ordinary
(possibly drift) verdict. -/
theorem adapters_never_reject :
    (∀ rand : ℚ, analyzeCompliance true rand .err = MOCK_RESPONSE_DRIFT ∧
      analyzeCompliance true rand .emptyText = MOCK_RESPONSE_DRIFT) ∧
    MOCK_RESPONSE_DRIFT.status = .DRIFT ∧
    MOCK_RESPONSE_DRIFT.drift_severity = .CRITICAL ∧
    (∀ rand : ℚ, analyzeCompliance true rand .err =
      analyzeCompliance true rand (.ok MOCK_RESPONSE_DRIFT)) ∧
    (∀ ts : String,
      (performEntropyCheck true true ts .err).status = .DRIFT ∧
      (performEntropyCheck true true ts .err).severity = .MEDIUM ∧
      (performEntropyCheck true true ts .err).message =
        "CONNECTION LOST: Retrying backend..." ∧
      (performEntropyCheck true false ts .err).status = .MATCH) :=
  ⟨fun _ => ⟨rfl, rfl⟩, rfl, rfl, fun _ => rfl, fun _ => ⟨rfl, rfl, rfl, rfl⟩⟩

/-- C7: the session score is `max(0, 100 - 15 * number of ERROR-type
entries)`; entries of any other type do not change it, appending one more
entry never increases it, it never drops below 0, and the scenario-B
CRITICAL drift appended to an empty log scores exactly 85. -/
theorem compliance_score_penalty :
    (∀ logs : List LogEntry,
      complianceScore logs = max 0 (100 - 15 * (countErrors logs : Int))) ∧
    (∀ (logs : List LogEntry) (e : LogEntry), e.type ≠ LogType.ERROR →
      complianceScore (logs ++ [e]) = complianceScore logs) ∧
    (∀ (logs : List LogEntry) (e : LogEntry),
      complianceScore (logs ++ [e]) ≤ complianceScore logs) ∧
    (∀ logs : List LogEntry, 0 ≤ complianceScore logs) ∧
    (∀ eid ets : String,
      complianceScore (captureFrameLog scenarioVerdict eid ets []) = 85) := by
  refine ⟨?_, ?_, ?_, ?_, ?_⟩
  · intro logs
    simp [complianceScore, Int.mul_comm]
  · intro logs e he
    simp [complianceScore, countErrors_append_single, he]
  · intro logs e
    by_cases he : e.type = LogType.ERROR
    · simp only [complianceScore, countErrors_append_single, he, if_true]
      apply max_le_max le_rfl
      push_cast
      omega
    · simp [complianceScore, countErrors_append_single, he]
  · intro logs
    exact le_max_left 0 _
  · intro eid ets
    simp [captureFrameLog, scenarioVerdict, complianceScore, countErrors]

/-- Witness for `compliance_score_penalty`: a WARNING entry appended to the
empty log does not change the score. -/
theorem compliance_score_penalty_witness :
    (warningEntry.type ≠ LogType.ERROR) ∧
    complianceScore ([] ++ [warningEntry]) = complianceScore [] :=
  ⟨by decide, compliance_score_penalty.2.1 [] warningEntry (by decide)⟩

/-- C2 / single flight: a trigger of any kind arriving while the in-flight
flag is set leaves the scheduler state untouched and starts no Reasoning
Client call (dropped, not queued), and a call can only start from a state
whose in-flight flag is clear - so the client never sees two concurrent
calls. -/
theorem single_flight_invariant :
    (∀ (s : SchedulerState) (now : Nat) (webcam frame : Bool),
      s.analyzing = true → tryStart now webcam frame s = (s, false)) ∧
    (∀ (s : SchedulerState) (now : Nat) (webcam frame : Bool),
      (tryStart now webcam frame s).2 = true → s.analyzing = false) := by
  constructor
  · intro s now webcam frame h
    simp [tryStart, h]
  · intro s now webcam frame h
    cases hA : s.analyzing
    · rfl
    · simp [tryStart, hA] at h

/-- Witness for `single_flight_invariant`: a concrete trigger arriving
while a call is in flight is a no-op. -/
theorem single_flight_invariant_witness :
    ({ SchedInit with analyzing := true } : SchedulerState).analyzing = true ∧
    tryStart 9999 true true { SchedInit with analyzing := true } =
      ({ SchedInit with analyzing := true }, false) :=
  ⟨rfl, single_flight_invariant.1 { SchedInit with analyzing := true }
    9999 true true rfl⟩

/-- C3 (amended): a trigger less than 2000 ms after the last accepted one
is dropped with no state change; a trigger at least 2000 ms later, arriving
when no call is in flight, the scheduler is not frozen and a frame is
available, starts a second call; and along any execution consecutive call
start times are always at least 2000 ms apart (the `SchedInv` history
invariant is preserved by both scheduler phases). -/
theorem rate_limit_spacing :
    (∀ (s : SchedulerState) (now : Nat) (frame : Bool),
      s.analyzing = false → s.frozen = false →
      now - s.lastProcessed < 2000 →
      tryStart now true frame s = (s, false)) ∧
    (∀ (s : SchedulerState) (now : Nat),
      s.analyzing = false → s.frozen = false →
      s.lastProcessed + 2000 ≤ now →
      (tryStart now true true s).2 = true ∧
      (tryStart now true true s).1.callsStarted = now :: s.callsStarted) ∧
    (∀ (s : SchedulerState) (now : Nat) (webcam frame : Bool),
      SchedInv s → SchedInv (tryStart now webcam frame s).1) ∧
    (∀ (s : SchedulerState) (o : Except Unit ComplianceResponse)
      (meta : String × String), SchedInv s → SchedInv (finish o meta s)) := by
  refine ⟨?_, ?_, ?_, ?_⟩
  · intro s now frame hA hF hlt
    simp [tryStart, hA, hF, hlt]
  · intro s now hA hF hle
    have hnl : ¬ now - s.lastProcessed < 2000 := by omega
    simp [tryStart, hA, hF, hnl]
  · intro s now webcam frame hInv
    unfold tryStart
    split_ifs with h1 h2 h3 <;> dsimp only
    · exact hInv
    · exact hInv
    · obtain ⟨hle, hpw⟩ := hInv
      have hnow : s.lastProcessed + 2000 ≤ now := by omega
      refine ⟨?_, ?_⟩ <;> dsimp only [SchedInv] at *
      · intro m hm
        rcases List.mem_cons.mp hm with rfl | hm
        · exact le_rfl
        · exact le_trans (hle m hm) (by omega)
      · refine List.Pairwise.cons ?_ hpw
        intro m hm
        have := hle m hm
        omega
    · obtain ⟨hle, hpw⟩ := hInv
      have hnow : s.lastProcessed + 2000 ≤ now := by omega
      exact ⟨fun m hm =>
        le_trans (hle m hm) (show s.lastProcessed ≤ now by omega), hpw⟩
  · intro s o meta hInv
    cases o with
    | error e => exact hInv
    | ok r =>
      unfold finish
      dsimp only
      split_ifs <;> exact hInv

/-- Witness for `rate_limit_spacing`: from the initial state a trigger at
1000 ms (less than 2000 ms after the initial stamp 0) is dropped. -/
theorem rate_limit_spacing_witness :
    SchedInit.analyzing = false ∧ SchedInit.frozen = false ∧
    (1000 - SchedInit.lastProcessed < 2000) ∧
    tryStart 1000 true true SchedInit = (SchedInit, false) :=
  ⟨rfl, rfl, by decide,
    rate_limit_spacing.1 SchedInit 1000 true rfl rfl (by decide)⟩

/-- C3 counterexample: two triggers 2200 ms apart (at 5000 ms and 7200 ms)
with the first call still unresolved produce only ONE Reasoning Client
call - the second trigger is dropped by the in-flight guard even though it
satisfies the rate limit, refuting the claim that a trigger at least T
after the previous started call always yields a second call. -/
theorem rate_limit_inflight_drop_counterexample :
    (tryStart 5000 true true SchedInit).2 = true ∧
    2000 ≤ 7200 - 5000 ∧
    tryStart 7200 true true (tryStart 5000 true true SchedInit).1 =
      ((tryStart 5000 true true SchedInit).1, false) ∧
    (tryStart 7200 true true
        (tryStart 5000 true true SchedInit).1).1.callsStarted.length = 1 := by
  refine ⟨rfl, by decide, rfl, rfl⟩

/-- C1 (amended): when the promise awaited by `runComplianceCheck` rejects,
the tick leaves the in-flight flag clear, the audit log unchanged and the
last verdict unchanged (only the rate-limit stamp of the started call and a
transient notice remain); but a network/parse failure inside the
`analyzeCompliance` adapter is swallowed there and returned as the mock
CRITICAL DRIFT verdict, so such a failure appends an audit entry instead of
leaving the log unchanged. -/
theorem scheduler_failure_semantics :
    (∀ (s : SchedulerState) (now : Nat) (webcam frame : Bool),
      s.analyzing = false →
      (runCheckRejecting now webcam frame s).analyzing = false ∧
      (runCheckRejecting now webcam frame s).auditLogs = s.auditLogs ∧
      (runCheckRejecting now webcam frame s).result = s.result) ∧
    (∀ (s : SchedulerState) (now : Nat) (rand : ℚ) (meta : String × String),
      s.analyzing = false → s.frozen = false →
      s.lastProcessed + 2000 ≤ now →
      (runCheckWithClient now true true true rand .err meta s).analyzing =
        false ∧
      (runCheckWithClient now true true true rand .err meta s).auditLogs =
        mkAuditEntry meta MOCK_RESPONSE_DRIFT :: s.auditLogs) := by
  constructor
  · intro s now webcam frame hA
    cases hst : (tryStart now webcam frame s).2 with
    | false =>
      have heq : runCheckRejecting now webcam frame s =
          (tryStart now webcam frame s).1 := by
        simp [runCheckRejecting, hst]
      rw [heq, tryStart_not_started now webcam frame s hst,
        tryStart_fst_auditLogs, tryStart_fst_result]
      exact ⟨hA, rfl, rfl⟩
    | true =>
      have heq : runCheckRejecting now webcam frame s =
          finish (.error ()) ("", "") (tryStart now webcam frame s).1 := by
        simp [runCheckRejecting, hst]
      rw [heq]
      simp [finish, tryStart_fst_auditLogs, tryStart_fst_result]
  · intro s now rand meta hA hF hle
    have hnl : ¬ now - s.lastProcessed < 2000 := by omega
    unfold runCheckWithClient tryStart
    simp only [hA, hF, hnl]
    simp [analyzeCompliance, finish, MOCK_RESPONSE_DRIFT, mkAuditEntry]

/-- Witness for `scheduler_failure_semantics`: a concrete rejected call
from the initial state leaves the flag clear and the log and verdict
untouched, and a concrete adapter-level network failure appends exactly the
mock audit entry. -/
theorem scheduler_failure_semantics_witness :
    SchedInit.analyzing = false ∧
    ((runCheckRejecting 5000 true true SchedInit).analyzing = false ∧
      (runCheckRejecting 5000 true true SchedInit).auditLogs =
        SchedInit.auditLogs ∧
      (runCheckRejecting 5000 true true SchedInit).result =
        SchedInit.result) ∧
    ((runCheckWithClient 5000 true true true 0 .err ("id-1", "10:00:00")
        SchedInit).analyzing = false ∧
      (runCheckWithClient 5000 true true true 0 .err ("id-1", "10:00:00")
        SchedInit).auditLogs =
        mkAuditEntry ("id-1", "10:00:00") MOCK_RESPONSE_DRIFT ::
          SchedInit.auditLogs) :=
  ⟨rfl, scheduler_failure_semantics.1 SchedInit 5000 true true rfl,
    scheduler_failure_semantics.2 SchedInit 5000 0 ("id-1", "10:00:00")
      rfl rfl (by decide)⟩

/-- C1 counterexample: an analysis call whose remote request fails with a
network error (outcome `err`) grows the audit log from 0 to 1 entries - the
adapter converts the failure into a mock CRITICAL DRIFT verdict which the
scheduler records - refuting the claim that the audit log is unchanged
whenever the Reasoning Client request fails. -/
theorem network_failure_appends_audit :
    (runCheckWithClient 5000 true true true 0 .err ("id-1", "10:00:00")
      SchedInit).auditLogs.length = 1 ∧
    SchedInit.auditLogs.length = 0 :=
  ⟨rfl, rfl⟩

/-- C5 counterexample: confirming while awaiting on step index 0 of a
two-step list advances the index to 1 and resumes playback, but leaves
every `completed` flag false - `handleStepConfirm` never marks
`steps[i].completed = true`, refuting that part of the claim. -/
theorem step_confirm_no_completed_mark :
    (handleStepConfirm c5Ex).currentStepIndex = 1 ∧
    (handleStepConfirm c5Ex).isStepWaiting = false ∧
    (handleStepConfirm c5Ex).isPlaying = true ∧
    (handleStepConfirm c5Ex).sopSteps.map Step.completed = [false, false] := by
  refine ⟨rfl, rfl, rfl, rfl⟩

/-- C5 (amended): a confirmation while awaiting clears the waiting flag;
below the last index it increments the step index by exactly 1 (staying
within `[0, N)`) and resumes playback, leaving the step list - including
every `completed` flag - untouched; on the last index the procedure
completes instead: the video is closed (halting playback), the step list is
cleared and the index reset to 0. -/
theorem step_confirm_advance (s : AppSt) (hw : s.isStepWaiting = true)
    (hne : s.sopSteps ≠ []) (hidx : s.currentStepIndex < s.sopSteps.length) :
    (handleStepConfirm s).isStepWaiting = false ∧
    (s.currentStepIndex < s.sopSteps.length - 1 →
      (handleStepConfirm s).currentStepIndex = s.currentStepIndex + 1 ∧
      (handleStepConfirm s).isPlaying = true ∧
      (handleStepConfirm s).sopSteps = s.sopSteps ∧
      (handleStepConfirm s).currentStepIndex ≤ s.sopSteps.length - 1) ∧
    (s.currentStepIndex = s.sopSteps.length - 1 →
      (handleStepConfirm s).activeYoutube = false ∧
      (handleStepConfirm s).sopSteps = [] ∧
      (handleStepConfirm s).currentStepIndex = 0 ∧
      playbackActive (handleStepConfirm s) = false) := by
  unfold handleStepConfirm
  dsimp only
  split_ifs with hlt <;> dsimp only
  · exact ⟨rfl, fun _ => ⟨rfl, rfl, rfl, by omega⟩,
      fun heq => absurd hlt (by omega)⟩
  · exact ⟨rfl, fun h => absurd h hlt, fun _ => ⟨rfl, rfl, rfl, rfl⟩⟩

/-- Witness for `step_confirm_advance`: the concrete awaiting state
`c5Ex` (index 0 of 2 steps) satisfies every hypothesis, and confirming it
advances to index 1 with playback resumed. -/
theorem step_confirm_advance_witness :
    (c5Ex.isStepWaiting = true ∧ c5Ex.sopSteps ≠ [] ∧
      c5Ex.currentStepIndex < c5Ex.sopSteps.length) ∧
    ((handleStepConfirm c5Ex).isStepWaiting = false ∧
      (c5Ex.currentStepIndex < c5Ex.sopSteps.length - 1 →
        (handleStepConfirm c5Ex).currentStepIndex =
          c5Ex.currentStepIndex + 1 ∧
        (handleStepConfirm c5Ex).isPlaying = true ∧
        (handleStepConfirm c5Ex).sopSteps = c5Ex.sopSteps ∧
        (handleStepConfirm c5Ex).currentStepIndex ≤
          c5Ex.sopSteps.length - 1) ∧
      (c5Ex.currentStepIndex = c5Ex.sopSteps.length - 1 →
        (handleStepConfirm c5Ex).activeYoutube = false ∧
        (handleStepConfirm c5Ex).sopSteps = [] ∧
        (handleStepConfirm c5Ex).currentStepIndex = 0 ∧
        playbackActive (handleStepConfirm c5Ex) = false)) :=
  ⟨⟨rfl, by decide, by decide⟩,
    step_confirm_advance c5Ex rfl (by decide) (by decide)⟩

/-- C6: on the two-step procedure with golden frames at 10 s and 45 s, the
progress callback at 9.6 s (inside the 0.5 s lead window) pauses playback
and raises the awaiting-confirmation overlay for step 1; a confirming MATCH
verdict advances to step 2 and resumes; at 44.6 s it pauses again; and the
confirmation on the last step ends supervisor mode with playback halted. -/
theorem video_sync_scenario :
    c6S1.isVideoPlaying = false ∧ c6S1.showGoldenFrame = true ∧
    c6S1.currentVideoStepIndex = 0 ∧
    c6S2.currentVideoStepIndex = 1 ∧ c6S2.isVideoPlaying = true ∧
    c6S2.showGoldenFrame = false ∧
    c6S3.isVideoPlaying = false ∧ c6S3.showGoldenFrame = true ∧
    c6S3.currentVideoStepIndex = 1 ∧
    c6S4.isSupervisorMode = false ∧ c6S4.isVideoPlaying = false ∧
    c6S4.showGoldenFrame = false := by
  have h1 : c6S1 = c6After1 := by
    show handleVideoProgress (96/10) c6S0 = _
    norm_num [handleVideoProgress, c6S0, c6Steps, c6After1]
  have h2 : c6S2 = c6After2 := by
    show onMatchVerdict c6S1 = _
    rw [h1]
    norm_num [onMatchVerdict, supervisorAdvance, markCompleted, c6Steps,
      c6After1, c6After2]
  have h3 : c6S3 = c6After3 := by
    show handleVideoProgress (446/10) c6S2 = _
    rw [h2]
    norm_num [handleVideoProgress, markCompleted, c6Steps, c6After2, c6After3]
  have h4 : c6S4 = c6After4 := by
    show onMatchVerdict c6S3 = _
    rw [h3]
    norm_num [onMatchVerdict, supervisorAdvance, markCompleted, c6Steps,
      c6After3, c6After4]
  rw [h1, h2, h3, h4]
  exact ⟨rfl, rfl, rfl, rfl, rfl, rfl, rfl, rfl, rfl, rfl, rfl, rfl⟩

/-- C9: with an empty step list, one Smart-Pause tick and one progress
callback are identities (the guards bail out before any step access), the
protocol-text selection in `runAnalysis` returns the fallback string
without dereferencing any step, and no sequence of Smart-Pause ticks can
ever raise the awaiting-confirmation flag.  All the modelled operations are
total functions, so arming with zero steps cannot throw. -/
theorem empty_steps_safe :
    (∀ (t : ℚ) (s : AppSt), s.sopSteps = [] → smartPauseTick t s = s) ∧
    (∀ (p : ℚ) (s : SupSt), s.sopSteps = [] → handleVideoProgress p s = s) ∧
    (∀ s : AppSt, s.sopSteps = [] →
      currentStepText s = "Standard Operating Procedure") ∧
    (∀ (ts : List ℚ) (s : AppSt), s.sopSteps = [] → s.isStepWaiting = false →
      (ts.foldl (fun st t => smartPauseTick t st) s).isStepWaiting =
        false) := by
  have h1 : ∀ (t : ℚ) (s : AppSt), s.sopSteps = [] → smartPauseTick t s = s := by
    intro t s h
    simp [smartPauseTick, h]
  refine ⟨h1, ?_, ?_, ?_⟩
  · intro p s h
    simp [handleVideoProgress, h]
  · intro s h
    simp [currentStepText, h]
  · intro ts
    induction ts with
    | nil => intro s h hw; exact hw
    | cons t rest ih =>
      intro s h hw
      rw [List.foldl_cons, h1 t s h]
      exact ih s h hw

/-- Witness for `empty_steps_safe`: the concrete armed zero-step states are
left untouched by a tick and a progress callback, select the fallback
protocol text, and never enter the waiting state over three ticks. -/
theorem empty_steps_safe_witness :
    (c9Empty.sopSteps = [] ∧ c9EmptySup.sopSteps = [] ∧
      c9Empty.isStepWaiting = false) ∧
    smartPauseTick 5 c9Empty = c9Empty ∧
    handleVideoProgress 5 c9EmptySup = c9EmptySup ∧
    currentStepText c9Empty = "Standard Operating Procedure" ∧
    (([1, 2, 3] : List ℚ).foldl (fun st t => smartPauseTick t st)
      c9Empty).isStepWaiting = false :=
  ⟨⟨rfl, rfl, rfl⟩, empty_steps_safe.1 5 c9Empty rfl,
    empty_steps_safe.2.1 5 c9EmptySup rfl,
    empty_steps_safe.2.2.1 c9Empty rfl,
    empty_steps_safe.2.2.2 [1, 2, 3] c9Empty rfl rfl⟩

/-- Witness for `malformed_box_draws_nothing`: a box with a `NaN` height is
not drawn. -/
theorem malformed_box_draws_nothing_witness :
    (([some 100, some 200, some 300, none] : List JsNum).length ≠ 4 ∨
      none ∈ ([some 100, some 200, some 300, none] : List JsNum)) ∧
    drawnComplianceBox [some 100, some 200, some 300, none] 640 480 true =
      none :=
  ⟨Or.inr (by decide),
    malformed_box_draws_nothing [some 100, some 200, some 300, none] 640 480
      true (Or.inr (by decide))⟩

end EntropyGuard
